import Mathlib

/-
Verification development for the PayPal-clone repository.

The repository has two express applications:
  - src/server.js : the current application (users keyed by id in a JSON
    object, transactions / gift-card submissions as JSON arrays);
  - src/app.js    : a legacy snapshot with a simpler signup and
    add-balance route.

We shallowly embed the route handlers that the claims are about as pure
functions over an explicit state.  JavaScript numbers are modelled as
exact rationals extended with NaN and the two infinities (`JsNum`), with
JavaScript comparison and arithmetic semantics; `parseFloat` of a
non-numeric string is modelled as the NaN value handed to the handler.
JSON objects used as ordered string-keyed maps (the users collection)
are modelled as ordered association lists, insertion at the end and
in-place update of the first matching key, matching for..in iteration
order and first-match-wins lookups of the source.  The audit log
(`saveAdminLog`) is write-only and observed by no claim, so its entries
are not carried in the state.
-/

/-- JavaScript numbers as used by the handlers: exact rationals plus
NaN and the infinities produced by `parseFloat`. -/
inductive JsNum where
  | nan : JsNum
  | inf : JsNum
  | ninf : JsNum
  | num : ℚ → JsNum
deriving DecidableEq, Repr

/-- JavaScript `isNaN`. -/
def JsNum.isNaN : JsNum → Bool
  | .nan => true
  | _ => false

/-- JavaScript `<` comparison (false whenever an operand is NaN). -/
def jlt : JsNum → JsNum → Bool
  | .num a, .num b => decide (a < b)
  | .ninf, .num _ => true
  | .ninf, .inf => true
  | .num _, .inf => true
  | _, _ => false

/-- JavaScript `<=` comparison (false whenever an operand is NaN). -/
def jle : JsNum → JsNum → Bool
  | .num a, .num b => decide (a ≤ b)
  | .ninf, .ninf => true
  | .ninf, .num _ => true
  | .ninf, .inf => true
  | .num _, .inf => true
  | .inf, .inf => true
  | _, _ => false

/-- JavaScript addition. -/
def jadd : JsNum → JsNum → JsNum
  | .num a, .num b => .num (a + b)
  | .nan, _ => .nan
  | _, .nan => .nan
  | .inf, .ninf => .nan
  | .ninf, .inf => .nan
  | .inf, _ => .inf
  | _, .inf => .inf
  | _, _ => .ninf

/-- JavaScript negation. -/
def jneg : JsNum → JsNum
  | .nan => .nan
  | .inf => .ninf
  | .ninf => .inf
  | .num a => .num (-a)

/-- JavaScript subtraction. -/
def jsub (a b : JsNum) : JsNum := jadd a (jneg b)

/-- JavaScript multiplication. -/
def jmul : JsNum → JsNum → JsNum
  | .num a, .num b => .num (a * b)
  | .nan, _ => .nan
  | _, .nan => .nan
  | .inf, .inf => .inf
  | .inf, .ninf => .ninf
  | .ninf, .inf => .ninf
  | .ninf, .ninf => .inf
  | .inf, .num q => if 0 < q then .inf else if q < 0 then .ninf else .nan
  | .num q, .inf => if 0 < q then .inf else if q < 0 then .ninf else .nan
  | .ninf, .num q => if 0 < q then .ninf else if q < 0 then .inf else .nan
  | .num q, .ninf => if 0 < q then .ninf else if q < 0 then .inf else .nan

/-- Lower-casing as used by the source's toLowerCase() comparisons,
written over the character list so that it is kernel-reducible
(String.toLower itself evaluates through a partial helper). -/
def strLower (s : String) : String := String.mk (s.data.map Char.toLower)

/-- A user record of src/server.js (fields of the objects stored in
users.json; optional fields default to absent). -/
structure User where
  id : String
  name : String
  email : String
  password : String
  balance : JsNum
  role : String
  created : String
  status : String
  activated : Bool
  adminLevel : Option String := none
  createdBy : Option String := none
deriving DecidableEq, Repr

/-- A transaction record (union of the field sets used by the various
routes; `fromAcct`/`toAcct` model the JSON fields `from`/`to`, and
`imagesFront`/`imagesBack` the nested `images` object). -/
structure Transaction where
  type : String
  fromAcct : String
  toAcct : String
  amount : JsNum
  timestamp : String
  fromId : Option String := none
  fromName : Option String := none
  fromEmail : Option String := none
  toId : Option String := none
  toName : Option String := none
  toEmail : Option String := none
  note : Option String := none
  status : Option String := none
  paymentMethod : Option String := none
  imagesFront : Option String := none
  imagesBack : Option String := none
  transactionId : Option String := none
  walletAddress : Option String := none
deriving DecidableEq, Repr

/-- A gift-card submission record (gift_card_submissions.json). -/
structure GiftCardSubmission where
  userId : String
  userName : String
  userEmail : String
  activationFee : JsNum
  imagesFront : String
  imagesBack : String
  status : String
  timestamp : String
  ip : String
  approvedBy : Option String := none
  approvedAt : Option String := none
  rejectedBy : Option String := none
  rejectedAt : Option String := none
  rejectionReason : Option String := none
deriving DecidableEq, Repr

/-- The users collection: a JSON object keyed by user id, modelled as an
ordered association list (for..in iteration order). -/
abbrev Users : Type := List (String × User)

/-- JavaScript `obj[k] = v` on an object modelled as an ordered
association list: overwrite the first binding of `k`, or append a new
binding when the key is absent. -/
def objSet {β : Type} : List (String × β) → String → β → List (String × β)
  | [], k, v => [(k, v)]
  | p :: rest, k, v => if p.1 == k then (k, v) :: rest else p :: objSet rest k v

/-- Replace the first element satisfying `p` by its image under `f`
(the effect of mutating, in place, the element returned by
`Array.prototype.find`). -/
def updateFirst {α : Type} (p : α → Bool) (f : α → α) : List α → List α
  | [] => []
  | x :: rest => if p x then f x :: rest else x :: updateFirst p f rest

/-- The persistent collections touched by the claims (users.json,
transactions.json, gift_card_submissions.json), threaded through the
handlers; a handler's output state is what it persists. -/
structure ServerState where
  users : Users
  transactions : List Transaction
  giftCardSubmissions : List GiftCardSubmission
deriving DecidableEq, Repr

/-- Case-insensitive linear scan for a user by email, first match wins
(the for..in loop used by the admin routes). -/
def findUserByEmail (users : Users) (email : String) : Option (String × User) :=
  users.find? fun p => strLower p.2.email == strLower email

/-- Result of POST /api/admin/add-balance. -/
inductive AddBalanceResult where
  | userNotFound : AddBalanceResult
  | invalidAmount : AddBalanceResult
  | ok : JsNum → AddBalanceResult
deriving DecidableEq, Repr

/-- POST /api/admin/add-balance (src/server.js lines 1013-1088): find the
target by email case-insensitively, reject NaN or non-positive amounts,
otherwise add the amount to the balance, append an admin_credit
transaction and persist users and transactions. -/
def addBalance (st : ServerState) (adminId adminName email : String)
    (amount : JsNum) (note : Option String) (now : String) :
    ServerState × AddBalanceResult :=
  match findUserByEmail st.users email with
  | none => (st, .userNotFound)
  | some (targetUserId, targetUser) =>
    if amount.isNaN || jle amount (.num 0) then (st, .invalidAmount)
    else
      let newUser := { targetUser with balance := jadd targetUser.balance amount }
      let tx : Transaction :=
        { type := "admin_credit"
          fromAcct := "ADMIN"
          fromId := some adminId
          fromName := some adminName
          toAcct := targetUserId
          toName := some targetUser.name
          toEmail := some targetUser.email
          amount := amount
          note := some (note.getD ("Admin credit by " ++ adminName))
          timestamp := now }
      ({ st with users := objSet st.users targetUserId newUser
                 transactions := st.transactions ++ [tx] },
       .ok newUser.balance)

/-- Result of POST /api/admin/deduct-balance. -/
inductive DeductBalanceResult where
  | userNotFound : DeductBalanceResult
  | insufficientBalance : DeductBalanceResult
  | ok : JsNum → DeductBalanceResult
deriving DecidableEq, Repr

/-- POST /api/admin/deduct-balance (src/server.js lines 1091-1152): find
the target by email, fail when balance < amount, otherwise subtract the
amount, append an admin_debit transaction and persist.  Note the source
performs no NaN or positivity check on the parsed amount. -/
def deductBalance (st : ServerState) (adminId adminName email : String)
    (amount : JsNum) (note : Option String) (now : String) :
    ServerState × DeductBalanceResult :=
  match findUserByEmail st.users email with
  | none => (st, .userNotFound)
  | some (targetUserId, targetUser) =>
    if jlt targetUser.balance amount then (st, .insufficientBalance)
    else
      let newUser := { targetUser with balance := jsub targetUser.balance amount }
      let tx : Transaction :=
        { type := "admin_debit"
          fromAcct := targetUserId
          fromName := some targetUser.name
          fromEmail := some targetUser.email
          toAcct := "ADMIN"
          toId := some adminId
          toName := some adminName
          amount := amount
          note := some (note.getD ("Admin debit by " ++ adminName))
          timestamp := now }
      ({ st with users := objSet st.users targetUserId newUser
                 transactions := st.transactions ++ [tx] },
       .ok newUser.balance)

/-- Result of the signup / create-user routes. -/
inductive SignupResult where
  | emailExists : SignupResult
  | ok : String → SignupResult
deriving DecidableEq, Repr

/-- POST /signup (src/server.js lines 505-538): reject when any stored
user's email matches case-insensitively, otherwise create the user with
id "user_" ++ Date.now(), lower-cased email, balance 0, role "user",
status "active" and activated false. -/
def signup (st : ServerState) (name email password nowMs nowIso : String) :
    ServerState × SignupResult :=
  if st.users.any (fun p => strLower p.2.email == strLower email) then
    (st, .emailExists)
  else
    let userId := "user_" ++ nowMs
    let u : User :=
      { id := userId
        name := name
        email := strLower email
        password := password
        balance := .num 0
        role := "user"
        created := nowIso
        status := "active"
        activated := false }
    ({ st with users := objSet st.users userId u }, .ok userId)

/-- POST /api/admin/create-user (src/server.js lines 1200-1241): reject a
case-insensitive duplicate email, otherwise create a user with id
"admin_created_" ++ Date.now(), balance parseFloat(initialBalance) || 0,
role role || "user", and activated true exactly for role "admin". -/
def createUser (st : ServerState) (adminId name email password : String)
    (initialBalance : JsNum) (role : Option String) (nowMs nowIso : String) :
    ServerState × SignupResult :=
  if st.users.any (fun p => strLower p.2.email == strLower email) then
    (st, .emailExists)
  else
    let userId := "admin_created_" ++ nowMs
    let bal := match initialBalance with
      | .nan => JsNum.num 0
      | b => b
    let u : User :=
      { id := userId
        name := name
        email := strLower email
        password := password
        balance := bal
        role := role.getD "user"
        created := nowIso
        status := "active"
        createdBy := some adminId
        activated := role == some "admin" }
    ({ st with users := objSet st.users userId u }, .ok userId)

/-- Result of POST /activation-payment/giftcard. -/
inductive GiftcardPayResult where
  | notLoggedIn : GiftcardPayResult
  | missingImages : GiftcardPayResult
  | ok : JsNum → GiftcardPayResult
deriving DecidableEq, Repr

/-- POST /activation-payment/giftcard (src/server.js lines 624-698):
for the logged-in user, the activation fee is balance * 0.02; with both
images present, append a pending gift-card submission and a pending
activation_fee transaction; the balance is not touched. -/
def giftcardPayment (st : ServerState) (userId : String)
    (frontImage backImage : Option String) (now ip : String) :
    ServerState × GiftcardPayResult :=
  match List.lookup userId st.users with
  | none => (st, .notLoggedIn)
  | some user =>
    let activationFee := jmul user.balance (.num (0.02 : ℚ))
    match frontImage, backImage with
    | some front, some back =>
      let sub : GiftCardSubmission :=
        { userId := userId
          userName := user.name
          userEmail := user.email
          activationFee := activationFee
          imagesFront := front
          imagesBack := back
          status := "pending"
          timestamp := now
          ip := ip }
      let tx : Transaction :=
        { type := "activation_fee"
          fromAcct := userId
          fromName := some user.name
          toAcct := "system"
          toName := some "PayPal Activation"
          amount := activationFee
          note := some "Activation fee via gift card (pending verification)"
          timestamp := now
          paymentMethod := some "giftcard"
          status := some "pending"
          imagesFront := some front
          imagesBack := some back }
      ({ st with giftCardSubmissions := st.giftCardSubmissions ++ [sub]
                 transactions := st.transactions ++ [tx] },
       .ok activationFee)
    | _, _ => (st, .missingImages)

/-- Result of POST /activation-payment/usdt. -/
inductive UsdtPayResult where
  | notLoggedIn : UsdtPayResult
  | missingTxId : UsdtPayResult
  | ok : JsNum → UsdtPayResult
deriving DecidableEq, Repr

/-- POST /activation-payment/usdt (src/server.js lines 701-752): the fee
is balance * 0.02; with a transaction id present, append a completed
activation_fee transaction and set the user's activated flag; the
balance is not touched. -/
def usdtPayment (st : ServerState) (userId : String)
    (transactionId : Option String) (now : String) :
    ServerState × UsdtPayResult :=
  match List.lookup userId st.users with
  | none => (st, .notLoggedIn)
  | some user =>
    match transactionId with
    | none => (st, .missingTxId)
    | some txid =>
      let activationFee := jmul user.balance (.num (0.02 : ℚ))
      let tx : Transaction :=
        { type := "activation_fee"
          fromAcct := userId
          fromName := some user.name
          toAcct := "system"
          toName := some "PayPal Activation"
          amount := activationFee
          note := some ("Activation fee via USDT (TXID: " ++ txid ++ ")")
          timestamp := now
          paymentMethod := some "usdt"
          status := some "completed"
          transactionId := some txid
          walletAddress := some "bybit\"TH24TXpvXKVySBwb6XYZcW2kNoGw7XwCbx" }
      ({ st with transactions := st.transactions ++ [tx]
                 users := objSet st.users userId { user with activated := true } },
       .ok activationFee)

/-- The submission lookup predicate of approve/reject-giftcard: match by
timestamp or by userId. -/
def subMatches (submissionId : String) (s : GiftCardSubmission) : Bool :=
  s.timestamp == submissionId || s.userId == submissionId

/-- The transaction searched for by approve-giftcard: a pending
gift-card payment from the submission's user. -/
def pendingGiftcardTx (uid : String) (t : Transaction) : Bool :=
  t.fromAcct == uid && t.paymentMethod == some "giftcard" && t.status == some "pending"

/-- Result of POST /api/admin/approve-giftcard. -/
inductive ApproveResult where
  | notFound : ApproveResult
  | approved : ApproveResult
deriving DecidableEq, Repr

/-- POST /api/admin/approve-giftcard (src/server.js lines 868-925): find
the submission by timestamp or userId; mark it approved; set the user's
activated flag if the user exists; flip the first pending gift-card
transaction of that user to completed if one exists; persist all three
collections.  Missing user or missing transaction is silently skipped. -/
def approveGiftcard (st : ServerState) (adminId submissionId now : String) :
    ServerState × ApproveResult :=
  match st.giftCardSubmissions.find? (subMatches submissionId) with
  | none => (st, .notFound)
  | some sub =>
    let subs' := updateFirst (subMatches submissionId)
      (fun s => { s with status := "approved"
                         approvedBy := some adminId
                         approvedAt := some now })
      st.giftCardSubmissions
    let users' := match List.lookup sub.userId st.users with
      | some u => objSet st.users sub.userId { u with activated := true }
      | none => st.users
    let txs' := updateFirst (pendingGiftcardTx sub.userId)
      (fun t => { t with status := some "completed"
                         note := some "Gift card payment approved by admin" })
      st.transactions
    ({ users := users', transactions := txs', giftCardSubmissions := subs' },
     .approved)

/-- Result of POST /api/admin/reject-giftcard. -/
inductive RejectResult where
  | notFound : RejectResult
  | rejected : RejectResult
deriving DecidableEq, Repr

/-- POST /api/admin/reject-giftcard (src/server.js lines 928-958): find
the submission by timestamp or userId and set only its rejection fields;
only the gift-card submissions collection is written. -/
def rejectGiftcard (st : ServerState) (adminId submissionId : String)
    (reason : Option String) (now : String) : ServerState × RejectResult :=
  match st.giftCardSubmissions.find? (subMatches submissionId) with
  | none => (st, .notFound)
  | some _ =>
    let subs' := updateFirst (subMatches submissionId)
      (fun s => { s with status := "rejected"
                         rejectedBy := some adminId
                         rejectedAt := some now
                         rejectionReason := some (reason.getD "No reason provided") })
      st.giftCardSubmissions
    ({ st with giftCardSubmissions := subs' }, .rejected)

/-- A user record of the legacy src/app.js snapshot (no id, created,
status or activated fields; email stored as given). -/
structure AppUser where
  name : String
  email : String
  password : String
  balance : JsNum
  role : String
deriving DecidableEq, Repr

/-- The collections of src/app.js: users.json and transactions.json. -/
structure AppState where
  users : List (String × AppUser)
  transactions : List Transaction
deriving DecidableEq, Repr

/-- POST /signup of src/app.js (lines 124-161): reject only on an exact
(case-sensitive) email match, otherwise create the user keyed by
Date.now().toString() with balance 100.00 and role "user", and seed the
admin123 account when absent. -/
def appSignup (st : AppState) (name email password nowMs : String) :
    AppState × SignupResult :=
  if st.users.any (fun p => p.2.email == email) then (st, .emailExists)
  else
    let userId := nowMs
    let u : AppUser :=
      { name := name, email := email, password := password
        balance := .num 100, role := "user" }
    let users1 := objSet st.users userId u
    let users2 :=
      if users1.any (fun p => p.1 == "admin123") then users1
      else objSet users1 "admin123"
        { name := "Admin", email := "admin@paypal.com", password := "admin123"
          balance := .num 10000, role := "admin" }
    ({ st with users := users2 }, .ok userId)

/-- POST /admin/add-balance of src/app.js (lines 201-224): look the
target up by id, add the parsed amount to the balance with no
validation, and append a transaction of type "admin_add". -/
def appAddBalance (st : AppState) (userId : String) (amount : JsNum)
    (now : String) : AppState × AddBalanceResult :=
  match List.lookup userId st.users with
  | none => (st, .userNotFound)
  | some u =>
    let u' := { u with balance := jadd u.balance amount }
    let tx : Transaction :=
      { type := "admin_add"
        fromAcct := "ADMIN"
        toAcct := userId
        amount := amount
        timestamp := now }
    ({ users := objSet st.users userId u', transactions := st.transactions ++ [tx] },
     .ok u'.balance)

/-- Contents of a persisted JSON document, for the file-level model of
the Record Store (claim C8). -/
inductive FileContent where
  | usersC : Users → FileContent
  | txC : List Transaction → FileContent
deriving DecidableEq

/-- The file system as a partial map from paths to parsed documents. -/
def FS : Type := String → Option FileContent

/-- `fs.writeFileSync(p, c)`. -/
def fsWrite (fs : FS) (p : String) (c : FileContent) : FS :=
  fun q => if q == p then some c else fs q

def USERS_FILE : String := "data/users.json"

def USERS_BACKUP : String := "data/users.json.backup"

def USERS_AUTOSAVE : String := "data/users.json.autosave"

def TRANSACTIONS_FILE : String := "data/transactions.json"

def TRANSACTIONS_BACKUP : String := "data/transactions.json.backup"

def TRANSACTIONS_AUTOSAVE : String := "data/transactions.json.autosave"

/-- `saveUsers` (src/server.js lines 264-292): when the main file has
content, first copy it to the fixed-name .backup and to the .autosave,
then fully overwrite the main file and the .autosave with the new
document. -/
def saveUsers (fs : FS) (users : Users) : FS :=
  let fs1 := match fs USERS_FILE with
    | some c => fsWrite (fsWrite fs USERS_BACKUP c) USERS_AUTOSAVE c
    | none => fs
  fsWrite (fsWrite fs1 USERS_FILE (.usersC users)) USERS_AUTOSAVE (.usersC users)

/-- `getTransactions` (src/server.js lines 295-305): parse the main
file, defaulting to the empty list when missing or malformed. -/
def getTransactions (fs : FS) : List Transaction :=
  match fs TRANSACTIONS_FILE with
  | some (.txC l) => l
  | _ => []

/-- `saveTransaction` (src/server.js lines 307-319): append to the
loaded list, then fully overwrite the main file and the .autosave with
the new list.  No copy of the previous content is made. -/
def saveTransaction (fs : FS) (t : Transaction) : FS :=
  let l := getTransactions fs ++ [t]
  fsWrite (fsWrite fs TRANSACTIONS_FILE (.txC l)) TRANSACTIONS_AUTOSAVE (.txC l)

/-- `c` is the content of no path of `fs`. -/
def holdsNowhere (fs : FS) (c : FileContent) : Prop :=
  ∀ p, fs p ≠ some c


/-- Concrete user record used by the witnesses. -/
def uAlice : User :=
  { id := "u1", name := "Alice", email := "alice@x.com", password := "pw"
    balance := .num 100, role := "user", created := "2024-01-01"
    status := "active", activated := false }

/-- A one-user server state. -/
def stOne : ServerState :=
  { users := [("u1", uAlice)], transactions := [], giftCardSubmissions := [] }

/-- Concrete user with balance 500 for the activation-fee scenario. -/
def uCarol : User :=
  { id := "u5", name := "Carol", email := "carol@x.com", password := "pw"
    balance := .num 500, role := "user", created := "2024-01-01"
    status := "active", activated := false }

/-- Server state holding the balance-500 user. -/
def stGift : ServerState :=
  { users := [("u5", uCarol)], transactions := [], giftCardSubmissions := [] }

/-- A pending gift-card submission for user u1. -/
def subPending : GiftCardSubmission :=
  { userId := "u1", userName := "Alice", userEmail := "alice@x.com"
    activationFee := .num 2, imagesFront := "f.png", imagesBack := "b.png"
    status := "pending", timestamp := "TS1", ip := "1.2.3.4" }

/-- The pending gift-card transaction paired with `subPending`. -/
def txPending : Transaction :=
  { type := "activation_fee", fromAcct := "u1", toAcct := "system"
    amount := .num 2, timestamp := "TS1", paymentMethod := some "giftcard"
    status := some "pending" }

/-- Server state ready for a gift-card approval. -/
def stApprove : ServerState :=
  { users := [("u1", uAlice)], transactions := [txPending]
    giftCardSubmissions := [subPending] }

/-- A pending submission whose userId exists in no user record. -/
def subGhost : GiftCardSubmission :=
  { userId := "ghost", userName := "Ghost", userEmail := "ghost@x.com"
    activationFee := .num 2, imagesFront := "f.png", imagesBack := "b.png"
    status := "pending", timestamp := "TS9", ip := "1.2.3.4" }

/-- Server state with an orphaned submission and no transactions. -/
def stGhost : ServerState :=
  { users := [("u1", uAlice)], transactions := [], giftCardSubmissions := [subGhost] }

/-- Concrete legacy-app user. -/
def auBob : AppUser :=
  { name := "Bob", email := "bob@x.com", password := "pw"
    balance := .num 100, role := "user" }

/-- One-user legacy-app state. -/
def appStOne : AppState := { users := [("u1", auBob)], transactions := [] }

/-- Empty legacy-app state. -/
def stEmptyApp : AppState := { users := [], transactions := [] }

/-- Legacy-app user whose email is stored in lower case. -/
def auEve : AppUser :=
  { name := "Eve", email := "eve@x.com", password := "pw"
    balance := .num 100, role := "user" }

/-- Legacy-app state holding `auEve`. -/
def stAppEve : AppState := { users := [("500", auEve)], transactions := [] }

/-- A concrete stored transaction. -/
def txA : Transaction :=
  { type := "activation_fee", fromAcct := "u1", toAcct := "system"
    amount := .num 10, timestamp := "T1" }

/-- A concrete transaction to be appended. -/
def txB : Transaction :=
  { type := "admin_credit", fromAcct := "ADMIN", toAcct := "u1"
    amount := .num 5, timestamp := "T2" }

/-- File system holding one transactions file. -/
def fs0 : FS := fsWrite (fun _ => none) TRANSACTIONS_FILE (.txC [txA])

/-- File system holding one users file. -/
def fsU : FS := fsWrite (fun _ => none) USERS_FILE (.usersC [])


theorem lookup_objSet_self {β : Type} (m : List (String × β)) (k : String) (v : β) :
    List.lookup k (objSet m k v) = some v := by
  induction m with
  | nil => simp [objSet, List.lookup]
  | cons p rest ih =>
    by_cases h : p.1 = k
    · simp [objSet, h, List.lookup]
    · have hb : (p.1 == k) = false := by simp [h]
      have hb' : (k == p.1) = false := by simp [Ne.symm h]
      simp [objSet, hb, List.lookup, hb', ih]

theorem lookup_objSet_ne {β : Type} (m : List (String × β)) (k k' : String) (v : β)
    (h : k' ≠ k) : List.lookup k' (objSet m k v) = List.lookup k' m := by
  induction m with
  | nil =>
    have hb : (k' == k) = false := by simp [h]
    simp [objSet, List.lookup, hb]
  | cons p rest ih =>
    by_cases hp : p.1 = k
    · have hb : (p.1 == k) = true := by simp [hp]
      have hk' : (k' == p.1) = false := by simp [hp, h]
      have hk'' : (k' == k) = false := by simp [h]
      simp [objSet, hb, List.lookup, hk', hk'']
    · have hb : (p.1 == k) = false := by simp [hp]
      simp only [objSet, hb, if_false, List.lookup]
      cases hkp : (k' == p.1) <;> simp [ih]

theorem updateFirst_of_forall_not {α : Type} (p : α → Bool) (f : α → α)
    (xs : List α) (h : ∀ x ∈ xs, p x = false) : updateFirst p f xs = xs := by
  induction xs with
  | nil => rfl
  | cons a rest ih =>
    have ha : p a = false := h a (by simp)
    simp [updateFirst, ha, ih fun x hx => h x (by simp [hx])]

theorem updateFirst_eq_set {α : Type} (p : α → Bool) (f : α → α)
    (xs : List α) (x : α) (h : xs.find? p = some x) :
    ∃ n, xs.get? n = some x ∧ updateFirst p f xs = xs.set n (f x) := by
  induction xs with
  | nil => simp [List.find?] at h
  | cons a rest ih =>
    cases hp : p a with
    | true =>
      have hax : a = x := by
        have := h
        simp [List.find?, hp] at this
        exact this
      subst hax
      exact ⟨0, by simp, by simp [updateFirst, hp]⟩
    | false =>
      have h' : rest.find? p = some x := by
        have := h
        simpa [List.find?, hp] using this
      obtain ⟨n, hn, hset⟩ := ih h'
      exact ⟨n + 1, by simpa using hn, by simp [updateFirst, hp, hset]⟩

theorem find?_of_filter_singleton {α : Type} (p : α → Bool) (xs : List α) (x : α)
    (h : xs.filter p = [x]) : xs.find? p = some x := by
  induction xs with
  | nil => simp at h
  | cons a rest ih =>
    cases hp : p a with
    | true =>
      have := h
      simp [List.filter_cons, hp] at this
      obtain ⟨hax, -⟩ := this
      subst hax
      simp [List.find?, hp]
    | false =>
      have h' : rest.filter p = [x] := by simpa [List.filter_cons, hp] using h
      simpa [List.find?, hp] using ih h'

/-- Claim C2: for every stored user and every debit request where the
amount exceeds the balance (JavaScript comparison balance < amount), the
deduct-balance operation fails with InsufficientBalance, appends no
transaction, and leaves the users collection (and the whole state)
unchanged. -/
theorem deductBalance_insufficient_spec (st : ServerState)
    (adminId adminName email : String) (amount : JsNum) (note : Option String)
    (now : String) (uid : String) (u : User)
    (hfind : findUserByEmail st.users email = some (uid, u))
    (hlt : jlt u.balance amount = true) :
    deductBalance st adminId adminName email amount note now =
      (st, .insufficientBalance) := by
  simp [deductBalance, hfind, hlt]

/-- Witness for C2: debiting 500 from a balance of 100 fails with
InsufficientBalance and changes nothing. -/
theorem deductBalance_insufficient_spec_witness :
    deductBalance stOne "admin001" "PayPal" "alice@x.com" (JsNum.num 500) none "T" =
      (stOne, .insufficientBalance) :=
  deductBalance_insufficient_spec stOne "admin001" "PayPal" "alice@x.com"
    (JsNum.num 500) none "T" "u1" uAlice rfl rfl

/-- Counterexample to claim C5: the deduct-balance route performs no
amount validation.  Debiting the amount -50 (finite but not positive,
so the claim demands an InvalidAmount failure with no state change)
instead succeeds, raises the balance from 100 to 150, and appends an
admin_debit transaction. -/
theorem deductBalance_negative_amount_accepted :
    (deductBalance stOne "admin001" "PayPal" "alice@x.com" (JsNum.num (-50))
        none "T").2 = .ok (JsNum.num 150) ∧
    (deductBalance stOne "admin001" "PayPal" "alice@x.com" (JsNum.num (-50))
        none "T").1.transactions.map Transaction.type = ["admin_debit"] ∧
    List.lookup "u1" (deductBalance stOne "admin001" "PayPal" "alice@x.com"
        (JsNum.num (-50)) none "T").1.users =
      some { uAlice with balance := JsNum.num 150 } := by
  have hf : findUserByEmail [("u1", uAlice)] "alice@x.com" = some ("u1", uAlice) := rfl
  have hg : jlt uAlice.balance (JsNum.num (-50)) = false := by
    simp only [uAlice, jlt]
    exact decide_eq_false (by norm_num)
  have hb : jsub uAlice.balance (JsNum.num (-50)) = JsNum.num 150 := by
    simp only [uAlice, jsub, jneg, jadd]
    norm_num
  refine ⟨?_, ?_, ?_⟩
  · simp [deductBalance, stOne, hf, hg, hb]
  · simp [deductBalance, stOne, hf, hg]
  · simp [deductBalance, stOne, hf, hg, hb, lookup_objSet_self]

/-- Claim C5 (amended): the deduct-balance route does not validate the
amount; whenever the JavaScript comparison balance < amount is false
(which holds for every non-positive finite amount and for NaN), the
operation succeeds, sets the stored balance to balance - amount, and
appends exactly one admin_debit transaction with that amount. -/
theorem deductBalance_no_validation_spec (st : ServerState)
    (adminId adminName email : String) (amount : JsNum) (note : Option String)
    (now : String) (uid : String) (u : User)
    (hfind : findUserByEmail st.users email = some (uid, u))
    (hnlt : jlt u.balance amount = false) :
    ∃ tx : Transaction,
      (deductBalance st adminId adminName email amount note now).2 =
        .ok (jsub u.balance amount) ∧
      (deductBalance st adminId adminName email amount note now).1.transactions =
        st.transactions ++ [tx] ∧
      tx.type = "admin_debit" ∧ tx.amount = amount ∧
      List.lookup uid
          (deductBalance st adminId adminName email amount note now).1.users =
        some { u with balance := jsub u.balance amount } := by
  have hred : deductBalance st adminId adminName email amount note now =
      ({ users := objSet st.users uid { u with balance := jsub u.balance amount }
         transactions := st.transactions ++
           [{ type := "admin_debit", fromAcct := uid, fromName := some u.name
              fromEmail := some u.email, toAcct := "ADMIN", toId := some adminId
              toName := some adminName, amount := amount
              note := some (note.getD ("Admin debit by " ++ adminName))
              timestamp := now }]
         giftCardSubmissions := st.giftCardSubmissions },
       .ok (jsub u.balance amount)) := by
    simp [deductBalance, hfind, hnlt]
  refine ⟨{ type := "admin_debit", fromAcct := uid, fromName := some u.name
            fromEmail := some u.email, toAcct := "ADMIN", toId := some adminId
            toName := some adminName, amount := amount
            note := some (note.getD ("Admin debit by " ++ adminName))
            timestamp := now }, ?_, ?_, rfl, rfl, ?_⟩
  · rw [hred]
  · rw [hred]
  · rw [hred]
    exact lookup_objSet_self st.users uid { u with balance := jsub u.balance amount }

/-- Witness for the amended C5: a NaN amount passes the
balance-comparison guard and is debited, making the balance NaN. -/
theorem deductBalance_no_validation_spec_witness :
    (deductBalance stOne "admin001" "PayPal" "alice@x.com" JsNum.nan none "T").2 =
      .ok JsNum.nan ∧
    List.lookup "u1" (deductBalance stOne "admin001" "PayPal" "alice@x.com"
        JsNum.nan none "T").1.users = some { uAlice with balance := JsNum.nan } := by
  obtain ⟨tx, h1, -, -, -, h5⟩ :=
    deductBalance_no_validation_spec stOne "admin001" "PayPal" "alice@x.com"
      JsNum.nan none "T" "u1" uAlice rfl rfl
  exact ⟨h1, h5⟩

/-- Counterexample to claim C1: the add-balance route of the legacy
src/app.js, on a credit request with the finite positive amount 50 for a
stored user, appends a transaction whose type is "admin_add", not
"admin_credit" as the claim requires. -/
theorem appAddBalance_type_not_admin_credit :
    (appAddBalance appStOne "u1" (JsNum.num 50) "T").1.transactions.map
        Transaction.type = ["admin_add"] ∧
    (appAddBalance appStOne "u1" (JsNum.num 50) "T").2 = .ok (JsNum.num 150) ∧
    "admin_add" ≠ "admin_credit" := by
  have hl : List.lookup "u1" [("u1", auBob)] = some auBob := rfl
  have hb : jadd auBob.balance (JsNum.num 50) = JsNum.num 150 := by
    simp only [auBob, jadd]
    norm_num
  exact ⟨by simp [appAddBalance, appStOne, hl], by simp [appAddBalance, appStOne, hl, hb],
    by simp⟩

/-- Claim C1 (amended): for every stored user and every credit request
whose amount parses to a finite positive number, the credit operation
returns newBalance = oldBalance + amount, appends exactly one new
transaction with that amount and persists the updated user, all other
users' records unchanged; the transaction's type is "admin_credit" in
src/server.js but "admin_add" in the legacy src/app.js route. -/
theorem addBalance_credit_spec :
    (∀ (st : ServerState) (adminId adminName email : String) (q : ℚ)
        (note : Option String) (now : String) (uid : String) (u : User),
      findUserByEmail st.users email = some (uid, u) → 0 < q →
      ∃ tx : Transaction,
        (addBalance st adminId adminName email (JsNum.num q) note now).2 =
          .ok (jadd u.balance (JsNum.num q)) ∧
        (addBalance st adminId adminName email (JsNum.num q) note now).1.transactions =
          st.transactions ++ [tx] ∧
        tx.type = "admin_credit" ∧ tx.amount = JsNum.num q ∧
        List.lookup uid
            (addBalance st adminId adminName email (JsNum.num q) note now).1.users =
          some { u with balance := jadd u.balance (JsNum.num q) } ∧
        (∀ id, id ≠ uid →
          List.lookup id
              (addBalance st adminId adminName email (JsNum.num q) note now).1.users =
            List.lookup id st.users) ∧
        (addBalance st adminId adminName email (JsNum.num q) note now).1.giftCardSubmissions =
          st.giftCardSubmissions) ∧
    (∀ (st : AppState) (userId : String) (q : ℚ) (now : String) (u : AppUser),
      List.lookup userId st.users = some u → 0 < q →
      ∃ tx : Transaction,
        (appAddBalance st userId (JsNum.num q) now).2 =
          .ok (jadd u.balance (JsNum.num q)) ∧
        (appAddBalance st userId (JsNum.num q) now).1.transactions =
          st.transactions ++ [tx] ∧
        tx.type = "admin_add" ∧ tx.amount = JsNum.num q ∧
        List.lookup userId (appAddBalance st userId (JsNum.num q) now).1.users =
          some { u with balance := jadd u.balance (JsNum.num q) } ∧
        (∀ id, id ≠ userId →
          List.lookup id (appAddBalance st userId (JsNum.num q) now).1.users =
            List.lookup id st.users)) := by
  constructor
  · intro st adminId adminName email q note now uid u hfind hq
    have hval : (JsNum.isNaN (JsNum.num q) || jle (JsNum.num q) (JsNum.num 0)) = false := by
      have h1 : jle (JsNum.num q) (JsNum.num 0) = false := by
        simp only [jle]
        exact decide_eq_false (not_le.mpr hq)
      simp [JsNum.isNaN, h1]
    have hred : addBalance st adminId adminName email (JsNum.num q) note now =
        ({ users := objSet st.users uid { u with balance := jadd u.balance (JsNum.num q) }
           transactions := st.transactions ++
             [{ type := "admin_credit", fromAcct := "ADMIN", fromId := some adminId
                fromName := some adminName, toAcct := uid, toName := some u.name
                toEmail := some u.email, amount := JsNum.num q
                note := some (note.getD ("Admin credit by " ++ adminName))
                timestamp := now }]
           giftCardSubmissions := st.giftCardSubmissions },
         .ok (jadd u.balance (JsNum.num q))) := by
      simp [addBalance, hfind, hval]
    refine ⟨{ type := "admin_credit", fromAcct := "ADMIN", fromId := some adminId
              fromName := some adminName, toAcct := uid, toName := some u.name
              toEmail := some u.email, amount := JsNum.num q
              note := some (note.getD ("Admin credit by " ++ adminName))
              timestamp := now }, ?_, ?_, rfl, rfl, ?_, ?_, ?_⟩
    · rw [hred]
    · rw [hred]
    · rw [hred]
      exact lookup_objSet_self st.users uid { u with balance := jadd u.balance (JsNum.num q) }
    · intro id hid
      rw [hred]
      exact lookup_objSet_ne st.users uid id _ hid
    · rw [hred]
  · intro st userId q now u hl hq
    have hred : appAddBalance st userId (JsNum.num q) now =
        ({ users := objSet st.users userId { u with balance := jadd u.balance (JsNum.num q) }
           transactions := st.transactions ++
             [{ type := "admin_add", fromAcct := "ADMIN", toAcct := userId
                amount := JsNum.num q, timestamp := now }] },
         .ok (jadd u.balance (JsNum.num q))) := by
      simp [appAddBalance, hl]
    refine ⟨{ type := "admin_add", fromAcct := "ADMIN", toAcct := userId
              amount := JsNum.num q, timestamp := now }, ?_, ?_, rfl, rfl, ?_, ?_⟩
    · rw [hred]
    · rw [hred]
    · rw [hred]
      exact lookup_objSet_self st.users userId { u with balance := jadd u.balance (JsNum.num q) }
    · intro id hid
      rw [hred]
      exact lookup_objSet_ne st.users userId id _ hid

/-- Witness for the amended C1: crediting 50 to a balance of 100 yields
newBalance 150 on both routes, with the respective transaction types. -/
theorem addBalance_credit_spec_witness :
    (addBalance stOne "admin001" "PayPal" "alice@x.com" (JsNum.num 50) none "T").2 =
      .ok (JsNum.num 150) ∧
    (addBalance stOne "admin001" "PayPal" "alice@x.com" (JsNum.num 50)
        none "T").1.transactions.map Transaction.type = ["admin_credit"] ∧
    (appAddBalance appStOne "u1" (JsNum.num 50) "T").2 = .ok (JsNum.num 150) := by
  obtain ⟨tx, h1, h2, h3, -⟩ :=
    addBalance_credit_spec.1 stOne "admin001" "PayPal" "alice@x.com" 50 none "T"
      "u1" uAlice rfl (by norm_num)
  obtain ⟨tx2, g1, -⟩ :=
    addBalance_credit_spec.2 appStOne "u1" 50 "T" auBob rfl (by norm_num)
  have hbal : jadd uAlice.balance (JsNum.num 50) = JsNum.num 150 := by
    simp only [uAlice, jadd]
    norm_num
  have hbal2 : jadd auBob.balance (JsNum.num 50) = JsNum.num 150 := by
    simp only [auBob, jadd]
    norm_num
  refine ⟨by rw [h1, hbal], ?_, by rw [g1, hbal2]⟩
  rw [h2]
  simp [stOne, h3]

/-- Claim C3: submitting an activation payment (gift-card or USDT)
appends exactly one transaction of type activation_fee whose amount is
exactly the user's current balance times 0.02, and leaves the user's
balance unchanged (the gift-card route does not write users at all; the
USDT route changes only the activated flag of the paying user). -/
theorem activationFee_spec :
    (∀ (st : ServerState) (userId front back now ip : String) (u : User),
      List.lookup userId st.users = some u →
      ∃ tx : Transaction,
        (giftcardPayment st userId (some front) (some back) now ip).1.transactions =
          st.transactions ++ [tx] ∧
        tx.type = "activation_fee" ∧
        tx.amount = jmul u.balance (JsNum.num (0.02 : ℚ)) ∧
        (giftcardPayment st userId (some front) (some back) now ip).1.users = st.users ∧
        (giftcardPayment st userId (some front) (some back) now ip).2 =
          .ok (jmul u.balance (JsNum.num (0.02 : ℚ)))) ∧
    (∀ (st : ServerState) (userId txid now : String) (u : User),
      List.lookup userId st.users = some u →
      ∃ tx : Transaction,
        (usdtPayment st userId (some txid) now).1.transactions =
          st.transactions ++ [tx] ∧
        tx.type = "activation_fee" ∧
        tx.amount = jmul u.balance (JsNum.num (0.02 : ℚ)) ∧
        List.lookup userId (usdtPayment st userId (some txid) now).1.users =
          some { u with activated := true } ∧
        (∀ id, id ≠ userId →
          List.lookup id (usdtPayment st userId (some txid) now).1.users =
            List.lookup id st.users) ∧
        (usdtPayment st userId (some txid) now).2 =
          .ok (jmul u.balance (JsNum.num (0.02 : ℚ)))) := by
  constructor
  · intro st userId front back now ip u hl
    have hred : giftcardPayment st userId (some front) (some back) now ip =
        ({ st with
             giftCardSubmissions := st.giftCardSubmissions ++
               [{ userId := userId, userName := u.name, userEmail := u.email
                  activationFee := jmul u.balance (JsNum.num (0.02 : ℚ))
                  imagesFront := front, imagesBack := back, status := "pending"
                  timestamp := now, ip := ip }]
             transactions := st.transactions ++
               [{ type := "activation_fee", fromAcct := userId
                  fromName := some u.name, toAcct := "system"
                  toName := some "PayPal Activation"
                  amount := jmul u.balance (JsNum.num (0.02 : ℚ))
                  note := some "Activation fee via gift card (pending verification)"
                  timestamp := now, paymentMethod := some "giftcard"
                  status := some "pending", imagesFront := some front
                  imagesBack := some back }] },
         .ok (jmul u.balance (JsNum.num (0.02 : ℚ)))) := by
      simp [giftcardPayment, hl]
    exact ⟨_, by rw [hred], rfl, rfl, by rw [hred], by rw [hred]⟩
  · intro st userId txid now u hl
    have hred : usdtPayment st userId (some txid) now =
        ({ st with
             transactions := st.transactions ++
               [{ type := "activation_fee", fromAcct := userId
                  fromName := some u.name, toAcct := "system"
                  toName := some "PayPal Activation"
                  amount := jmul u.balance (JsNum.num (0.02 : ℚ))
                  note := some ("Activation fee via USDT (TXID: " ++ txid ++ ")")
                  timestamp := now, paymentMethod := some "usdt"
                  status := some "completed", transactionId := some txid
                  walletAddress := some "bybit\"TH24TXpvXKVySBwb6XYZcW2kNoGw7XwCbx" }]
             users := objSet st.users userId { u with activated := true } },
         .ok (jmul u.balance (JsNum.num (0.02 : ℚ)))) := by
      simp [usdtPayment, hl]
    refine ⟨_, by rw [hred], rfl, rfl, ?_, ?_, by rw [hred]⟩
    · rw [hred]
      exact lookup_objSet_self st.users userId { u with activated := true }
    · intro id hid
      rw [hred]
      exact lookup_objSet_ne st.users userId id _ hid

/-- Witness for C3: a user with balance 500 gets an activation fee of
exactly 10.0 recorded, on both payment routes, with the balance kept. -/
theorem activationFee_spec_witness :
    (giftcardPayment stGift "u5" (some "f.png") (some "b.png") "T"
        "1.2.3.4").1.transactions.map Transaction.amount = [JsNum.num 10] ∧
    (giftcardPayment stGift "u5" (some "f.png") (some "b.png") "T" "1.2.3.4").1.users =
      stGift.users ∧
    (usdtPayment stGift "u5" (some "TX1") "T").1.transactions.map
        Transaction.amount = [JsNum.num 10] ∧
    List.lookup "u5" (usdtPayment stGift "u5" (some "TX1") "T").1.users =
      some { uCarol with activated := true } := by
  obtain ⟨tx, h1, -, h3, h4, -⟩ :=
    activationFee_spec.1 stGift "u5" "f.png" "b.png" "T" "1.2.3.4" uCarol rfl
  obtain ⟨tx2, g1, -, g3, g4, -⟩ :=
    activationFee_spec.2 stGift "u5" "TX1" "T" uCarol rfl
  have hfee : jmul uCarol.balance (JsNum.num (0.02 : ℚ)) = JsNum.num 10 := by
    simp only [uCarol, jmul]
    norm_num
  refine ⟨?_, h4, ?_, g4⟩
  · rw [h1]
    simp [stGift, h3, hfee]
  · rw [g1]
    simp [stGift, g3, hfee]

/-- Claim C4: approving a gift-card submission looks it up by
timestamp == submissionId or userId == submissionId and fails NotFound
when neither matches; on success (here with the user present and a
single matching pending gift-card transaction, as the claim assumes) it
marks the submission approved with approvedBy/approvedAt, sets
activated = true on the associated user leaving all other users alone,
flips that single pending gift-card transaction to completed, and the
resulting state holds all three updated collections. -/
theorem approveGiftcard_spec :
    (∀ (st : ServerState) (adminId submissionId now : String),
      (∀ s ∈ st.giftCardSubmissions, subMatches submissionId s = false) →
      approveGiftcard st adminId submissionId now = (st, .notFound)) ∧
    (∀ (st : ServerState) (adminId submissionId now : String)
        (sub : GiftCardSubmission) (u : User) (t : Transaction),
      st.giftCardSubmissions.find? (subMatches submissionId) = some sub →
      List.lookup sub.userId st.users = some u →
      st.transactions.filter (pendingGiftcardTx sub.userId) = [t] →
      (approveGiftcard st adminId submissionId now).2 = .approved ∧
      (∃ n, st.giftCardSubmissions.get? n = some sub ∧
        (approveGiftcard st adminId submissionId now).1.giftCardSubmissions =
          st.giftCardSubmissions.set n
            { sub with status := "approved", approvedBy := some adminId
                       approvedAt := some now }) ∧
      List.lookup sub.userId (approveGiftcard st adminId submissionId now).1.users =
        some { u with activated := true } ∧
      (∀ id, id ≠ sub.userId →
        List.lookup id (approveGiftcard st adminId submissionId now).1.users =
          List.lookup id st.users) ∧
      (∃ m, st.transactions.get? m = some t ∧
        (approveGiftcard st adminId submissionId now).1.transactions =
          st.transactions.set m
            { t with status := some "completed"
                     note := some "Gift card payment approved by admin" })) := by
  constructor
  · intro st adminId submissionId now h
    have hnone : st.giftCardSubmissions.find? (subMatches submissionId) = none := by
      rw [List.find?_eq_none]
      intro s hs
      simp [h s hs]
    simp [approveGiftcard, hnone]
  · intro st adminId submissionId now sub u t hsub hu hfilter
    have htx : st.transactions.find? (pendingGiftcardTx sub.userId) = some t :=
      find?_of_filter_singleton _ _ _ hfilter
    have hred : approveGiftcard st adminId submissionId now =
        ({ users := objSet st.users sub.userId { u with activated := true }
           transactions := updateFirst (pendingGiftcardTx sub.userId)
             (fun tr => { tr with status := some "completed"
                                  note := some "Gift card payment approved by admin" })
             st.transactions
           giftCardSubmissions := updateFirst (subMatches submissionId)
             (fun s => { s with status := "approved", approvedBy := some adminId
                                approvedAt := some now })
             st.giftCardSubmissions },
         .approved) := by
      simp [approveGiftcard, hsub, hu]
    refine ⟨by rw [hred], ?_, ?_, ?_, ?_⟩
    · obtain ⟨n, hn, hset⟩ := updateFirst_eq_set (subMatches submissionId)
        (fun s => { s with status := "approved", approvedBy := some adminId
                           approvedAt := some now })
        st.giftCardSubmissions sub hsub
      exact ⟨n, hn, by rw [hred]; exact hset⟩
    · rw [hred]
      exact lookup_objSet_self st.users sub.userId { u with activated := true }
    · intro id hid
      rw [hred]
      exact lookup_objSet_ne st.users sub.userId id _ hid
    · obtain ⟨m, hm, hset⟩ := updateFirst_eq_set (pendingGiftcardTx sub.userId)
        (fun tr => { tr with status := some "completed"
                             note := some "Gift card payment approved by admin" })
        st.transactions t htx
      exact ⟨m, hm, by rw [hred]; exact hset⟩

/-- Witness for C4: approving the concrete pending submission by its
timestamp activates the user and completes the transaction, and an
unknown submission id yields NotFound. -/
theorem approveGiftcard_spec_witness :
    (approveGiftcard stApprove "admin001" "TS1" "T2").2 = .approved ∧
    List.lookup "u1" (approveGiftcard stApprove "admin001" "TS1" "T2").1.users =
      some { uAlice with activated := true } ∧
    (approveGiftcard stApprove "admin001" "TS1" "T2").1.transactions.map
        (fun t => t.status) = [some "completed"] ∧
    approveGiftcard stApprove "admin001" "zzz" "T2" = (stApprove, .notFound) := by
  obtain ⟨h1, -, h3, -, m, hm, hset⟩ :=
    approveGiftcard_spec.2 stApprove "admin001" "TS1" "T2" subPending uAlice
      txPending rfl rfl rfl
  refine ⟨h1, h3, ?_, ?_⟩
  · rw [hset]
    have hm0 : m = 0 := by
      by_contra hne
      rw [show stApprove.transactions = [txPending] from rfl] at hm
      rcases m with - | m2
      · exact hne rfl
      · simp at hm
    subst hm0
    simp [stApprove]
  · exact approveGiftcard_spec.1 stApprove "admin001" "zzz" "T2" (by decide)

/-- Claim C9: rejecting a gift-card submission changes only the found
submission's own status fields (status, rejectedBy, rejectedAt,
rejectionReason); the users collection and the transaction collection
are returned unchanged. -/
theorem rejectGiftcard_frame_spec (st : ServerState)
    (adminId submissionId : String) (reason : Option String) (now : String)
    (sub : GiftCardSubmission)
    (hsub : st.giftCardSubmissions.find? (subMatches submissionId) = some sub) :
    (rejectGiftcard st adminId submissionId reason now).1.users = st.users ∧
    (rejectGiftcard st adminId submissionId reason now).1.transactions =
      st.transactions ∧
    (rejectGiftcard st adminId submissionId reason now).2 = .rejected ∧
    ∃ n, st.giftCardSubmissions.get? n = some sub ∧
      (rejectGiftcard st adminId submissionId reason now).1.giftCardSubmissions =
        st.giftCardSubmissions.set n
          { sub with status := "rejected", rejectedBy := some adminId
                     rejectedAt := some now
                     rejectionReason := some (reason.getD "No reason provided") } := by
  have hred : rejectGiftcard st adminId submissionId reason now =
      ({ st with
           giftCardSubmissions := updateFirst (subMatches submissionId)
             (fun s => { s with status := "rejected", rejectedBy := some adminId
                                rejectedAt := some now
                                rejectionReason := some (reason.getD "No reason provided") })
             st.giftCardSubmissions },
       .rejected) := by
    simp [rejectGiftcard, hsub]
  refine ⟨by rw [hred], by rw [hred], by rw [hred], ?_⟩
  obtain ⟨n, hn, hset⟩ := updateFirst_eq_set (subMatches submissionId)
    (fun s => { s with status := "rejected", rejectedBy := some adminId
                       rejectedAt := some now
                       rejectionReason := some (reason.getD "No reason provided") })
    st.giftCardSubmissions sub hsub
  exact ⟨n, hn, by rw [hred]; exact hset⟩

/-- Witness for C9: rejecting the concrete pending submission leaves the
user (still not activated) and the pending transaction untouched. -/
theorem rejectGiftcard_frame_spec_witness :
    (rejectGiftcard stApprove "admin001" "TS1" none "T2").1.users =
      stApprove.users ∧
    (rejectGiftcard stApprove "admin001" "TS1" none "T2").1.transactions =
      stApprove.transactions ∧
    (rejectGiftcard stApprove "admin001" "TS1" none "T2").2 = .rejected := by
  obtain ⟨h1, h2, h3, -⟩ :=
    rejectGiftcard_frame_spec stApprove "admin001" "TS1" none "T2" subPending rfl
  exact ⟨h1, h2, h3⟩

/-- Claim C10: approving a gift-card submission reports success even
when the submission's userId exists in no user record, or when no
matching pending gift-card transaction exists; the submission is still
marked approved while the missing step is silently skipped (users
respectively transactions are returned unchanged). -/
theorem approveGiftcard_lenient_spec :
    (∀ (st : ServerState) (adminId submissionId now : String)
        (sub : GiftCardSubmission),
      st.giftCardSubmissions.find? (subMatches submissionId) = some sub →
      List.lookup sub.userId st.users = none →
      (approveGiftcard st adminId submissionId now).2 = .approved ∧
      (approveGiftcard st adminId submissionId now).1.users = st.users ∧
      ∃ n, st.giftCardSubmissions.get? n = some sub ∧
        (approveGiftcard st adminId submissionId now).1.giftCardSubmissions =
          st.giftCardSubmissions.set n
            { sub with status := "approved", approvedBy := some adminId
                       approvedAt := some now }) ∧
    (∀ (st : ServerState) (adminId submissionId now : String)
        (sub : GiftCardSubmission),
      st.giftCardSubmissions.find? (subMatches submissionId) = some sub →
      (∀ t ∈ st.transactions, pendingGiftcardTx sub.userId t = false) →
      (approveGiftcard st adminId submissionId now).2 = .approved ∧
      (approveGiftcard st adminId submissionId now).1.transactions =
        st.transactions ∧
      ∃ n, st.giftCardSubmissions.get? n = some sub ∧
        (approveGiftcard st adminId submissionId now).1.giftCardSubmissions =
          st.giftCardSubmissions.set n
            { sub with status := "approved", approvedBy := some adminId
                       approvedAt := some now }) := by
  constructor
  · intro st adminId submissionId now sub hsub hu
    have hred : approveGiftcard st adminId submissionId now =
        ({ users := st.users
           transactions := updateFirst (pendingGiftcardTx sub.userId)
             (fun tr => { tr with status := some "completed"
                                  note := some "Gift card payment approved by admin" })
             st.transactions
           giftCardSubmissions := updateFirst (subMatches submissionId)
             (fun s => { s with status := "approved", approvedBy := some adminId
                                approvedAt := some now })
             st.giftCardSubmissions },
         .approved) := by
      simp [approveGiftcard, hsub, hu]
    refine ⟨by rw [hred], by rw [hred], ?_⟩
    obtain ⟨n, hn, hset⟩ := updateFirst_eq_set (subMatches submissionId)
      (fun s => { s with status := "approved", approvedBy := some adminId
                         approvedAt := some now })
      st.giftCardSubmissions sub hsub
    exact ⟨n, hn, by rw [hred]; exact hset⟩
  · intro st adminId submissionId now sub hsub htx
    have htxid : updateFirst (pendingGiftcardTx sub.userId)
        (fun tr => { tr with status := some "completed"
                             note := some "Gift card payment approved by admin" })
        st.transactions = st.transactions :=
      updateFirst_of_forall_not _ _ _ htx
    cases hu : List.lookup sub.userId st.users with
    | none =>
      have hred : approveGiftcard st adminId submissionId now =
          ({ users := st.users
             transactions := st.transactions
             giftCardSubmissions := updateFirst (subMatches submissionId)
               (fun s => { s with status := "approved", approvedBy := some adminId
                                  approvedAt := some now })
               st.giftCardSubmissions },
           .approved) := by
        simp [approveGiftcard, hsub, hu, htxid]
      refine ⟨by rw [hred], by rw [hred], ?_⟩
      obtain ⟨n, hn, hset⟩ := updateFirst_eq_set (subMatches submissionId)
        (fun s => { s with status := "approved", approvedBy := some adminId
                           approvedAt := some now })
        st.giftCardSubmissions sub hsub
      exact ⟨n, hn, by rw [hred]; exact hset⟩
    | some u =>
      have hred : approveGiftcard st adminId submissionId now =
          ({ users := objSet st.users sub.userId { u with activated := true }
             transactions := st.transactions
             giftCardSubmissions := updateFirst (subMatches submissionId)
               (fun s => { s with status := "approved", approvedBy := some adminId
                                  approvedAt := some now })
               st.giftCardSubmissions },
           .approved) := by
        simp [approveGiftcard, hsub, hu, htxid]
      refine ⟨by rw [hred], by rw [hred], ?_⟩
      obtain ⟨n, hn, hset⟩ := updateFirst_eq_set (subMatches submissionId)
        (fun s => { s with status := "approved", approvedBy := some adminId
                           approvedAt := some now })
        st.giftCardSubmissions sub hsub
      exact ⟨n, hn, by rw [hred]; exact hset⟩

/-- Witness for C10: approving the orphaned submission (its userId
matches no user and no transaction matches) still succeeds and marks it
approved, while users and transactions are unchanged. -/
theorem approveGiftcard_lenient_spec_witness :
    (approveGiftcard stGhost "admin001" "TS9" "T2").2 = .approved ∧
    (approveGiftcard stGhost "admin001" "TS9" "T2").1.users = stGhost.users ∧
    (approveGiftcard stGhost "admin001" "TS9" "T2").1.transactions =
      stGhost.transactions ∧
    (approveGiftcard stGhost "admin001" "TS9" "T2").1.giftCardSubmissions.map
        (fun s => s.status) = ["approved"] := by
  obtain ⟨h1, h2, -⟩ :=
    approveGiftcard_lenient_spec.1 stGhost "admin001" "TS9" "T2" subGhost rfl rfl
  obtain ⟨-, g2, n, hn, hset⟩ :=
    approveGiftcard_lenient_spec.2 stGhost "admin001" "TS9" "T2" subGhost rfl
      (by intro t ht; simp [stGhost] at ht)
  refine ⟨h1, h2, g2, ?_⟩
  rw [hset]
  have hn0 : n = 0 := by
    by_contra hne
    rw [show stGhost.giftCardSubmissions = [subGhost] from rfl] at hn
    rcases n with - | n2
    · exact hne rfl
    · simp at hn
  subst hn0
  simp [stGhost]

/-- Counterexample to claim C6: the signup route of the legacy
src/app.js creates its user with balance 100.00, not 0. -/
theorem appSignup_balance_100 :
    List.lookup "1000" (appSignup stEmptyApp "Dora" "dora@x.com" "pw" "1000").1.users =
      some { name := "Dora", email := "dora@x.com", password := "pw"
             balance := JsNum.num 100, role := "user" } ∧
    JsNum.num 100 ≠ JsNum.num 0 := by
  refine ⟨rfl, by simp⟩

/-- Claim C6 (amended): every user created via the src/server.js signup
route is created with role "user" and balance 0 (and activated false);
the legacy src/app.js signup instead creates its user with role "user"
and balance 100. -/
theorem signup_defaults_spec :
    (∀ (st : ServerState) (name email password nowMs nowIso : String),
      st.users.any (fun p => strLower p.2.email == strLower email) = false →
      (signup st name email password nowMs nowIso).2 = .ok ("user_" ++ nowMs) ∧
      ∃ u : User,
        List.lookup ("user_" ++ nowMs)
            (signup st name email password nowMs nowIso).1.users = some u ∧
        u.role = "user" ∧ u.balance = JsNum.num 0 ∧ u.activated = false) ∧
    (∀ (st : AppState) (name email password nowMs : String),
      st.users.any (fun p => p.2.email == email) = false →
      nowMs ≠ "admin123" →
      (appSignup st name email password nowMs).2 = .ok nowMs ∧
      ∃ u : AppUser,
        List.lookup nowMs (appSignup st name email password nowMs).1.users = some u ∧
        u.role = "user" ∧ u.balance = JsNum.num 100) := by
  constructor
  · intro st name email password nowMs nowIso hno
    refine ⟨by simp [signup, hno], ?_⟩
    refine ⟨{ id := "user_" ++ nowMs, name := name, email := strLower email
              password := password, balance := .num 0, role := "user"
              created := nowIso, status := "active", activated := false },
            ?_, rfl, rfl, rfl⟩
    simp only [signup, hno, Bool.false_eq_true, if_false]
    exact lookup_objSet_self st.users ("user_" ++ nowMs) _
  · intro st name email password nowMs hno hne
    refine ⟨by simp [appSignup, hno], ?_⟩
    refine ⟨{ name := name, email := email, password := password
              balance := .num 100, role := "user" }, ?_, rfl, rfl⟩
    simp only [appSignup, hno, Bool.false_eq_true, if_false]
    by_cases hadm : (objSet st.users nowMs
        { name := name, email := email, password := password
          balance := JsNum.num 100, role := "user" }).any (fun p => p.1 == "admin123")
    · simp only [hadm, if_true]
      exact lookup_objSet_self st.users nowMs _
    · simp only [hadm, Bool.false_eq_true, if_false]
      rw [lookup_objSet_ne _ "admin123" nowMs _ hne]
      exact lookup_objSet_self st.users nowMs _

/-- Witness for the amended C6: concrete signups on an empty store
create a balance-0 user on the server route and a balance-100 user on
the legacy route. -/
theorem signup_defaults_spec_witness :
    (signup { users := [], transactions := [], giftCardSubmissions := [] }
        "Dana" "dana@x.com" "pw" "1000" "2024-01-01").2 = .ok "user_1000" ∧
    (appSignup stEmptyApp "Dora" "dora@x.com" "pw" "1000").2 = .ok "1000" := by
  obtain ⟨h1, -⟩ :=
    signup_defaults_spec.1
      { users := [], transactions := [], giftCardSubmissions := [] }
      "Dana" "dana@x.com" "pw" "1000" "2024-01-01" rfl
  obtain ⟨g1, -⟩ :=
    signup_defaults_spec.2 stEmptyApp "Dora" "dora@x.com" "pw" "1000" rfl
      (by simp)
  exact ⟨h1, g1⟩

/-- Counterexample to claim C7: the legacy src/app.js signup compares
emails case-sensitively, so a second signup whose email differs from a
stored one only by letter case succeeds and extends the users
collection instead of failing with DuplicateEmail. -/
theorem appSignup_case_sensitive_duplicate :
    (appSignup stAppEve "Eve2" "EVE@x.com" "pw2" "501").2 = .ok "501" ∧
    List.lookup "501" (appSignup stAppEve "Eve2" "EVE@x.com" "pw2" "501").1.users =
      some { name := "Eve2", email := "EVE@x.com", password := "pw2"
             balance := JsNum.num 100, role := "user" } ∧
    strLower "EVE@x.com" = strLower "eve@x.com" := by
  exact ⟨rfl, rfl, rfl⟩

/-- Claim C7 (amended): creating a user whose email equals an existing
user's email case-insensitively fails with the duplicate-email error and
leaves the whole state unchanged, on both the src/server.js signup and
admin create-user routes; the legacy src/app.js signup checks only
case-sensitive equality, so it accepts any email with no exact match. -/
theorem duplicate_email_spec :
    (∀ (st : ServerState) (name email password nowMs nowIso : String),
      (∃ p ∈ st.users, strLower p.2.email = strLower email) →
      signup st name email password nowMs nowIso = (st, .emailExists)) ∧
    (∀ (st : ServerState) (adminId name email password : String)
        (initialBalance : JsNum) (role : Option String) (nowMs nowIso : String),
      (∃ p ∈ st.users, strLower p.2.email = strLower email) →
      createUser st adminId name email password initialBalance role nowMs nowIso =
        (st, .emailExists)) ∧
    (∀ (st : AppState) (name email password nowMs : String),
      (∀ p ∈ st.users, p.2.email ≠ email) →
      (appSignup st name email password nowMs).2 = .ok nowMs) := by
  refine ⟨?_, ?_, ?_⟩
  · intro st name email password nowMs nowIso h
    obtain ⟨p, hp, heq⟩ := h
    have hany : st.users.any (fun p => strLower p.2.email == strLower email) = true :=
      List.any_eq_true.mpr ⟨p, hp, by simp [heq]⟩
    simp [signup, hany]
  · intro st adminId name email password initialBalance role nowMs nowIso h
    obtain ⟨p, hp, heq⟩ := h
    have hany : st.users.any (fun p => strLower p.2.email == strLower email) = true :=
      List.any_eq_true.mpr ⟨p, hp, by simp [heq]⟩
    simp [createUser, hany]
  · intro st name email password nowMs h
    have hany : st.users.any (fun p => p.2.email == email) = false := by
      rw [List.any_eq_false]
      intro p hp
      simp [h p hp]
    simp [appSignup, hany]

/-- Witness for the amended C7: "ALICE@x.com" clashes with the stored
"alice@x.com" on both server routes, while the legacy route accepts
"EVE@x.com" untroubled by the stored "eve@x.com". -/
theorem duplicate_email_spec_witness :
    signup stOne "Al" "ALICE@x.com" "pw" "1000" "2024-01-02" =
      (stOne, .emailExists) ∧
    createUser stOne "admin001" "Al" "ALICE@x.com" "pw" (JsNum.num 5) none
        "1000" "2024-01-02" = (stOne, .emailExists) ∧
    (appSignup stAppEve "Eve2" "EVE@x.com" "pw2" "501").2 = .ok "501" := by
  refine ⟨?_, ?_, ?_⟩
  · exact duplicate_email_spec.1 stOne "Al" "ALICE@x.com" "pw" "1000" "2024-01-02"
      ⟨("u1", uAlice), by simp [stOne], rfl⟩
  · exact duplicate_email_spec.2.1 stOne "admin001" "Al" "ALICE@x.com" "pw"
      (JsNum.num 5) none "1000" "2024-01-02" ⟨("u1", uAlice), by simp [stOne], rfl⟩
  · exact duplicate_email_spec.2.2 stAppEve "Eve2" "EVE@x.com" "pw2" "501"
      (by intro p hp; simp [stAppEve, auEve] at hp; simp [hp])

/-- Counterexample to claim C8: saving a transaction does not copy the
previous content of the transactions collection to any backup location.
Starting from a file system whose only file is the transactions document
[txA], appending txB overwrites both the main file and the autosave with
the new list, the fixed-name .backup path stays absent, and the previous
content [txA] survives at no path whatsoever. -/
theorem saveTransaction_no_backup :
    saveTransaction fs0 txB TRANSACTIONS_FILE = some (.txC [txA, txB]) ∧
    saveTransaction fs0 txB TRANSACTIONS_AUTOSAVE = some (.txC [txA, txB]) ∧
    saveTransaction fs0 txB TRANSACTIONS_BACKUP = none ∧
    holdsNowhere (saveTransaction fs0 txB) (.txC [txA]) := by
  refine ⟨rfl, rfl, rfl, ?_⟩
  intro p
  simp only [saveTransaction, getTransactions, fs0, fsWrite]
  split_ifs <;> simp_all [txA, txB]

/-- Claim C8 (amended): saveUsers copies the previous users content to
the fixed-name users.json.backup (and the autosave) before fully
overwriting both the main file and the autosave with the new document;
saveTransaction fully overwrites the main transactions file and its
autosave with the appended list but writes no backup of the previous
content (the transactions .backup path is untouched). -/
theorem save_overwrite_backup_spec :
    (∀ (fs : FS) (users : Users) (c : FileContent),
      fs USERS_FILE = some c →
      saveUsers fs users USERS_BACKUP = some c ∧
      saveUsers fs users USERS_FILE = some (.usersC users) ∧
      saveUsers fs users USERS_AUTOSAVE = some (.usersC users)) ∧
    (∀ (fs : FS) (t : Transaction),
      saveTransaction fs t TRANSACTIONS_FILE =
        some (.txC (getTransactions fs ++ [t])) ∧
      saveTransaction fs t TRANSACTIONS_AUTOSAVE =
        some (.txC (getTransactions fs ++ [t])) ∧
      saveTransaction fs t TRANSACTIONS_BACKUP = fs TRANSACTIONS_BACKUP) := by
  constructor
  · intro fs users c h
    have h' : fs "data/users.json" = some c := h
    refine ⟨?_, ?_, ?_⟩ <;> simp [saveUsers, fsWrite, h', USERS_FILE, USERS_BACKUP,
      USERS_AUTOSAVE]
  · intro fs t
    refine ⟨?_, ?_, ?_⟩ <;> simp [saveTransaction, fsWrite, TRANSACTIONS_FILE,
      TRANSACTIONS_BACKUP, TRANSACTIONS_AUTOSAVE]

/-- Witness for the amended C8: on concrete file systems, saveUsers
preserves the old users document at the .backup path, and
saveTransaction writes the appended list to the main file while the
.backup path stays empty. -/
theorem save_overwrite_backup_spec_witness :
    saveUsers fsU [("u1", uAlice)] USERS_BACKUP = some (.usersC []) ∧
    saveTransaction (fun _ => none) txA TRANSACTIONS_FILE = some (.txC [txA]) ∧
    saveTransaction (fun _ => none) txA TRANSACTIONS_BACKUP = none := by
  refine ⟨(save_overwrite_backup_spec.1 fsU [("u1", uAlice)] (.usersC []) rfl).1,
    ?_, ?_⟩
  · have h := (save_overwrite_backup_spec.2 (fun _ => none) txA).1
    simpa [getTransactions] using h
  · exact (save_overwrite_backup_spec.2 (fun _ => none) txA).2.2
